import Mathlib

/-!
Shallow embedding of the palatino chess-core crate (Rust) in Lean 4.

Squares are naturals in [0,63] with A1 = 0, H8 = 63 (file = sq % 8,
rank = sq / 8).  Bitmasks are naturals below 2^64, bit i = square i.
Machine-integer casts (u16 -> i16) are made explicit.  The cached attack
tables live in a `cached` module that is not part of the sources; they are
modelled from the specification (section 4.1) and marked as such.
-/

namespace Palatino

/-- All 64 bits set: the value of `!0u64`. -/
def UMAX : Nat := 2 ^ 64 - 1

/-- Bitwise complement of a 64-bit mask (`Not for Bitmask`). -/
def compl (m : Nat) : Nat := UMAX ^^^ m

/-- `File`/`Rank` indices are 0..7; squares are `rank * 8 + file`. -/
def fileOf (sq : Nat) : Nat := sq % 8

/-- The rank index (0..7) of a square (source: `Square::rank`). -/
def rankOf (sq : Nat) : Nat := sq / 8

/-- Source `Square::new(file, rank)`: `(rank << 3) | file`. -/
def mkSquare (file rank : Nat) : Nat := rank * 8 + file

/-- Source `Square::try_idx`: `None` when the index is above 63. -/
def Square.try_idx (idx : Nat) : Option Nat :=
  if idx > 63 then none else some idx

/-- Source `Square::try_offset`: offset file and rank, `None` off-board. -/
def tryOffset (sq : Nat) (df dr : Int) : Option Nat :=
  let f : Int := (fileOf sq : Int) + df
  let r : Int := (rankOf sq : Int) + dr
  if 0 ≤ f ∧ f < 8 ∧ 0 ≤ r ∧ r < 8 then some ((r * 8 + f).toNat) else none

/-- Source `Square::with_file`. -/
def withFile (sq file : Nat) : Nat := mkSquare file (rankOf sq)

/-- Source `Square::with_rank`. -/
def withRank (sq rank : Nat) : Nat := mkSquare (fileOf sq) rank

/-- Source `Square::shares_orthogonal`. -/
def sharesOrthogonal (a b : Nat) : Bool :=
  fileOf a == fileOf b || rankOf a == rankOf b

/-- Source `Square::shares_diagonal`:
`(x1 - y1) == (x2 - y2) || (x1 - y2) == (x2 - y1)`. -/
def sharesDiagonal (a b : Nat) : Bool :=
  let x1 : Int := fileOf a
  let y1 : Int := rankOf a
  let x2 : Int := fileOf b
  let y2 : Int := rankOf b
  x1 - y1 == x2 - y2 || x1 - y2 == x2 - y1

/-- Source `Square::diag_edge`: the board edge from `sq` along a diagonal
direction `(d0, d1)` with components in `{-1, 1}`. -/
def diagEdge (sq : Nat) (d0 d1 : Int) : Nat :=
  let sf : Int := if d0 == -1 then (fileOf sq : Int) else 7 - (fileOf sq : Int)
  let sr : Int := if d1 == -1 then (rankOf sq : Int) else 7 - (rankOf sq : Int)
  let df := min sf sr
  let dr := min sf sr
  (tryOffset sq (df * d0) (dr * d1)).getD 0

/-- `Bitmask::from(Square)`: a one-bit mask. -/
def sqMask (sq : Nat) : Nat := 2 ^ sq

namespace Bitmask

/-- `Bitmask::has`: the source tests `self | square.mask() == self`. -/
def has (m sq : Nat) : Bool := (m ||| sqMask sq) == m

/-- `Bitmask::with`. -/
def withSq (m sq : Nat) : Nat := m ||| sqMask sq

/-- `Bitmask::without`. -/
def without (m sq : Nat) : Nat := m &&& compl (sqMask sq)

/-- `Bitmask::union`. -/
def union (m o : Nat) : Nat := m ||| o

/-- Source `Bitmask::intersection`: despite its name this computes
`self & !other`, i.e. the set difference. -/
def intersection (m o : Nat) : Nat := m &&& compl o

/-- Source `Bitmask::intersects`: `self.intersection(other) != self`,
which is true exactly when the two masks share a bit. -/
def intersects (m o : Nat) : Bool := intersection m o != m

/-- `Bitmask::count` (`count_ones`), with 64 bits of fuel. -/
def countAux : Nat → Nat → Nat
  | 0, _ => 0
  | fuel + 1, m => m % 2 + countAux fuel (m / 2)

/-- `Bitmask::count` for masks below `2 ^ 64`. -/
def count (m : Nat) : Nat := countAux 64 m

/-- `u64::trailing_zeros`, 64 bits of fuel: on 0 this returns 64,
exactly as the machine instruction does. -/
def ctzAux : Nat → Nat → Nat
  | 0, _ => 0
  | fuel + 1, m => if m % 2 == 1 then 0 else ctzAux fuel (m / 2) + 1

/-- `Bitmask::first`: `Square::try_idx(trailing_zeros)`, so `none` on the
empty mask. -/
def first (m : Nat) : Option Nat := Square.try_idx (ctzAux 64 m)

/-- Base-2 logarithm with 64 bits of fuel (the index of the top set bit
of a nonzero 64-bit value). -/
def log2Aux : Nat → Nat → Nat
  | 0, _ => 0
  | fuel + 1, m => if m ≥ 2 then log2Aux fuel (m / 2) + 1 else 0

/-- `Bitmask::last`: `none` on empty, else `63 - leading_zeros`, which for
a nonzero 64-bit value is its base-2 logarithm. -/
def last (m : Nat) : Option Nat :=
  if m == 0 then none else Square.try_idx (log2Aux 64 m)

/-- The squares of a mask, low to high — the order `BitmaskIter` yields. -/
def toList (m : Nat) : List Nat :=
  (List.range 64).filter (fun i => m.testBit i)

/-- A mask from a list of squares. -/
def ofList (l : List Nat) : Nat := l.foldl (fun m sq => withSq m sq) 0

end Bitmask

/-- `Bitmask` constant `RANK1` shifted: all squares of a rank. -/
def rankMask (rank : Nat) : Nat := 0xFF <<< (8 * rank)

/-- All squares of a file (`FILEA` shifted). -/
def fileMask (file : Nat) : Nat := 0x0101010101010101 <<< file

namespace cached

/-- Modelled from the spec: `BETWEEN[a][b]`, the open squares strictly
between `a` and `b` on a shared file, rank or diagonal, the empty mask
when the squares are not aligned.  (The `cached` module holding the
precomputed tables is not among the sources.) -/
def betweenWalk : Nat → Nat → Int → Int → Nat → Nat
  | 0, _, _, _, _ => 0
  | fuel + 1, cur, df, dr, stop =>
    match tryOffset cur df dr with
    | none => 0
    | some nxt =>
      if nxt == stop then 0
      else Bitmask.withSq (betweenWalk fuel nxt df dr stop) nxt

/-- Modelled from the spec: the sign of the step from `a` toward `b`. -/
def stepSign (a b : Nat) : Int :=
  if a < b then 1 else if b < a then -1 else 0

/-- Modelled from the spec: `BETWEEN[a][b]` (see `betweenWalk`). -/
def BETWEEN (a b : Nat) : Nat :=
  let df := stepSign (fileOf a) (fileOf b)
  let dr := stepSign (rankOf a) (rankOf b)
  let aligned :=
    (fileOf a == fileOf b || rankOf a == rankOf b) ||
      ((fileOf a : Int) - (fileOf b : Int)).natAbs ==
        ((rankOf a : Int) - (rankOf b : Int)).natAbs
  if a == b then 0
  else if aligned then betweenWalk 8 a df dr b else 0

/-- Modelled from the spec: a mask from a list of square offsets of `sq`. -/
def offsetMask (sq : Nat) (offs : List (Int × Int)) : Nat :=
  offs.foldl
    (fun m off =>
      match tryOffset sq off.1 off.2 with
      | some t => Bitmask.withSq m t
      | none => m)
    0

/-- Modelled from the spec: `KNIGHT[sq]`, the knight attack set. -/
def KNIGHT (sq : Nat) : Nat :=
  offsetMask sq
    [(1, 2), (2, 1), (2, -1), (1, -2), (-1, -2), (-2, -1), (-2, 1), (-1, 2)]

/-- Modelled from the spec: `KING[sq]`, the king attack set. -/
def KING (sq : Nat) : Nat :=
  offsetMask sq
    [(1, 0), (1, 1), (0, 1), (-1, 1), (-1, 0), (-1, -1), (0, -1), (1, -1)]

/-- Modelled from the spec: `WHITE_PAWN_ATTACKS[sq]`, diagonal captures. -/
def WHITE_PAWN_ATTACKS (sq : Nat) : Nat := offsetMask sq [(-1, 1), (1, 1)]

/-- Modelled from the spec: `BLACK_PAWN_ATTACKS[sq]`. -/
def BLACK_PAWN_ATTACKS (sq : Nat) : Nat := offsetMask sq [(-1, -1), (1, -1)]

/-- Modelled from the spec: `WHITE_PAWN_MOVES[sq]`, the single push plus
the initial double push (blockers not considered). -/
def WHITE_PAWN_MOVES (sq : Nat) : Nat :=
  offsetMask sq (if rankOf sq == 1 then [(0, 1), (0, 2)] else [(0, 1)])

/-- Modelled from the spec: `BLACK_PAWN_MOVES[sq]`. -/
def BLACK_PAWN_MOVES (sq : Nat) : Nat :=
  offsetMask sq (if rankOf sq == 6 then [(0, -1), (0, -2)] else [(0, -1)])

/-- Modelled from the spec: `ROOK[sq]`, the full orthogonal rays ignoring
blockers (the square itself excluded). -/
def ROOK (sq : Nat) : Nat :=
  Bitmask.without (fileMask (fileOf sq) ||| rankMask (rankOf sq)) sq

/-- Modelled from the spec: a full diagonal ray from `sq` in one
direction, ignoring blockers. -/
def rayWalk : Nat → Nat → Int → Int → Nat
  | 0, _, _, _ => 0
  | fuel + 1, cur, df, dr =>
    match tryOffset cur df dr with
    | none => 0
    | some nxt => Bitmask.withSq (rayWalk fuel nxt df dr) nxt

/-- Modelled from the spec: `BISHOP[sq]`, the full diagonal rays ignoring
blockers. -/
def BISHOP (sq : Nat) : Nat :=
  rayWalk 8 sq 1 1 ||| rayWalk 8 sq 1 (-1) |||
    rayWalk 8 sq (-1) 1 ||| rayWalk 8 sq (-1) (-1)

/-- Modelled from the spec: `QUEEN[sq] = ROOK[sq] ∪ BISHOP[sq]`. -/
def QUEEN (sq : Nat) : Nat := ROOK sq ||| BISHOP sq

end cached

/-- Source `Color` enum. -/
inductive Color where
  | white
  | black
deriving DecidableEq, Repr

namespace Color

/-- `Color as usize`: White = 0, Black = 1 (the mask index). -/
def toIdx : Color → Nat
  | white => 0
  | black => 1

/-- Source `Not for Color`. -/
def flip : Color → Color
  | white => black
  | black => white

/-- Source `Color::pawn_dir`. -/
def pawn_dir : Color → Int
  | white => 1
  | black => -1

/-- Source `Color::is_white`. -/
def is_white (c : Color) : Bool := c == white

/-- Source `Color::back_rank` (as a rank index). -/
def back_rank : Color → Nat
  | white => 0
  | black => 7

/-- Source `Color::of_char`: lowercase means black. -/
def of_char (c : Char) : Color := if c.isLower then black else white

/-- Source `Color::to_char`. -/
def to_char : Color → Char
  | white => 'w'
  | black => 'b'

end Color

/-- Source `Piece` enum. -/
inductive Piece where
  | pawn
  | king
  | rook
  | knight
  | bishop
  | queen
deriving DecidableEq, Repr

namespace Piece

/-- Source `Piece::index`. -/
def index : Piece → Nat
  | pawn => 0
  | king => 1
  | rook => 2
  | knight => 3
  | bishop => 4
  | queen => 5

/-- Source `Piece::from_index`. -/
def from_index : Nat → Option Piece
  | 0 => some pawn
  | 1 => some king
  | 2 => some rook
  | 3 => some knight
  | 4 => some bishop
  | 5 => some queen
  | _ => none

/-- Source `Piece::id`: a character, uppercase for white. -/
def id (p : Piece) (c : Color) : Char :=
  let ch : Char :=
    match p with
    | pawn => 'p'
    | king => 'k'
    | rook => 'r'
    | knight => 'n'
    | bishop => 'b'
    | queen => 'q'
  match c with
  | Color.white => ch.toUpper
  | Color.black => ch

/-- Source `Piece::from_id`. -/
def from_id (c : Char) : Option Piece :=
  match c.toLower with
  | 'p' => some pawn
  | 'k' => some king
  | 'r' => some rook
  | 'n' => some knight
  | 'b' => some bishop
  | 'q' => some queen
  | _ => none

/-- Source `Piece::is_slider`. -/
def is_slider : Piece → Bool
  | rook => true
  | queen => true
  | bishop => true
  | _ => false

/-- Source `Piece::sliding_attacks`. -/
def sliding_attacks (p : Piece) (sq : Nat) : Nat :=
  match p with
  | bishop => cached.BISHOP sq
  | rook => cached.ROOK sq
  | _ => cached.QUEEN sq

/-- Source `Piece::relevant_squares`. -/
def relevant_squares (p : Piece) (sq : Nat) (c : Color) : Nat :=
  match p with
  | pawn =>
    match c with
    | Color.white => cached.WHITE_PAWN_ATTACKS sq
    | Color.black => cached.BLACK_PAWN_ATTACKS sq
  | king => cached.KING sq
  | knight => cached.KNIGHT sq
  | _ => p.sliding_attacks sq

/-- Source `Piece::edges`: per direction, the board edge and the function
choosing the nearest blocker (`first` or `last`). -/
def edges (p : Piece) (sq : Nat) : List (Nat × (Nat → Option Nat)) :=
  let all : List (Nat × (Nat → Option Nat)) :=
    [ (withFile sq 0, Bitmask.last),
      (withFile sq 7, Bitmask.first),
      (withRank sq 0, Bitmask.last),
      (withRank sq 7, Bitmask.first),
      (diagEdge sq 1 1, Bitmask.first),
      (diagEdge sq (-1) (-1), Bitmask.last),
      (diagEdge sq (-1) 1, Bitmask.first),
      (diagEdge sq 1 (-1), Bitmask.last) ]
  match p with
  | bishop => all.drop 4
  | rook => all.take 4
  | _ => all

/-- Source `Piece::moves`: the `(capture_mask, push_mask)` pair.  Sliders
fold their full rays against the blockers edge by edge; pawns compute
their pushes from the cached table and the blockers. -/
def moves (p : Piece) (sq : Nat) (blockers : Nat) (c : Color) : Nat × Nat :=
  if p.is_slider then
    ( (p.edges sq).foldl
        (fun mask ed =>
          let between := cached.BETWEEN sq ed.1
          let blocking := between &&& blockers
          match ed.2 blocking with
          | some nearest =>
            Bitmask.without (Bitmask.intersection mask (cached.BETWEEN nearest ed.1)) ed.1
          | none => mask)
        (p.sliding_attacks sq),
      0 )
  else
    ( p.relevant_squares sq c,
      match p with
      | pawn =>
        let mv : Nat :=
          match c with
          | Color.white => cached.WHITE_PAWN_MOVES sq
          | Color.black => cached.BLACK_PAWN_MOVES sq
        match tryOffset sq 0 c.pawn_dir with
        | some one =>
          let mv := if Bitmask.has blockers one then Bitmask.without mv one else mv
          match tryOffset one 0 c.pawn_dir with
          | some two =>
            if !Bitmask.has mv one || Bitmask.has blockers one || Bitmask.has blockers two then
              Bitmask.without mv two
            else mv
          | none => mv
        | none => mv
      | _ => 0 )

end Piece

end Palatino

namespace Palatino

/-- Source `Position`: 8 masks (0 white, 1 black, 2..7 piece types in the
order pawn, king, rook, knight, bishop, queen), the en-passant square and
the halfmove counter. -/
structure Position where
  masks : List Nat
  enps : Option Nat
  halfmoves : Nat
deriving DecidableEq, Repr

namespace Position

/-- `Position::white`. -/
def white (p : Position) : Nat := p.masks.getD 0 0

/-- `Position::black`. -/
def black (p : Position) : Nat := p.masks.getD 1 0

/-- `Position::pawns`. -/
def pawns (p : Position) : Nat := p.masks.getD 2 0

/-- `Position::kings`. -/
def kings (p : Position) : Nat := p.masks.getD 3 0

/-- `Position::rooks`. -/
def rooks (p : Position) : Nat := p.masks.getD 4 0

/-- `Position::knights`. -/
def knights (p : Position) : Nat := p.masks.getD 5 0

/-- `Position::bishops`. -/
def bishops (p : Position) : Nat := p.masks.getD 6 0

/-- `Position::queens`. -/
def queens (p : Position) : Nat := p.masks.getD 7 0

/-- `Position::color_mask`. -/
def color_mask (p : Position) (c : Color) : Nat :=
  match c with
  | Color.white => p.white
  | Color.black => p.black

/-- `Position::occupied`. -/
def occupied (p : Position) : Nat := Bitmask.union p.white p.black

/-- `Position::color_of`. -/
def color_of (p : Position) (sq : Nat) : Option Color :=
  if Bitmask.has p.white sq then some Color.white
  else if Bitmask.has p.black sq then some Color.black
  else none

/-- `Position::pieces`: the piece-type masks with their pieces, in mask
order. -/
def pieces (p : Position) : List (Piece × Nat) :=
  [ (Piece.pawn, p.masks.getD 2 0),
    (Piece.king, p.masks.getD 3 0),
    (Piece.rook, p.masks.getD 4 0),
    (Piece.knight, p.masks.getD 5 0),
    (Piece.bishop, p.masks.getD 6 0),
    (Piece.queen, p.masks.getD 7 0) ]

/-- `Position::piece_at`: scan the piece-type masks; the colour lookup is
unwrapped in the source (positions are colour-consistent in every use). -/
def piece_at (p : Position) (sq : Nat) : Option (Color × Piece) :=
  match (List.range 6).find? (fun i => Bitmask.has (p.masks.getD (2 + i) 0) sq) with
  | some i =>
    some ((p.color_of sq).getD Color.white, (Piece.from_index i).getD Piece.pawn)
  | none => none

/-- `Position::diagonal_sliders`. -/
def diagonal_sliders (p : Position) (c : Color) : Nat :=
  (p.masks.getD 7 0 ||| p.masks.getD 6 0) &&& p.color_mask c

/-- `Position::orthogonal_sliders`. -/
def orthogonal_sliders (p : Position) (c : Color) : Nat :=
  (p.masks.getD 7 0 ||| p.masks.getD 4 0) &&& p.color_mask c

/-- `Position::remove`: clear the square in the colour mask, then in the
first piece-type mask holding it; returns what stood there. -/
def remove (p : Position) (sq : Nat) : Position × Option (Color × Piece) :=
  match p.color_of sq with
  | none => (p, none)
  | some c =>
    let masks := p.masks.set c.toIdx (Bitmask.without (p.masks.getD c.toIdx 0) sq)
    match (List.range 6).find? (fun i => Bitmask.has (masks.getD (2 + i) 0) sq) with
    | some i =>
      ({ p with masks := masks.set (2 + i) (Bitmask.without (masks.getD (2 + i) 0) sq) },
        some (c, (Piece.from_index i).getD Piece.pawn))
    | none => ({ p with masks := masks }, none)

/-- `Position::set`: remove whatever is on the square, then set the colour
and piece-type bits; returns the displaced piece. -/
def set (p : Position) (sq : Nat) (piece : Piece) (c : Color) :
    Position × Option (Color × Piece) :=
  let pr := p.remove sq
  let masks := pr.1.masks.set c.toIdx (Bitmask.withSq (pr.1.masks.getD c.toIdx 0) sq)
  let masks := masks.set (2 + piece.index)
    (Bitmask.withSq (masks.getD (2 + piece.index) 0) sq)
  ({ pr.1 with masks := masks }, pr.2)

end Position

/-- Source `BoardChange`: an edit on the board. -/
inductive BoardChange where
  | remove (sq : Nat)
  | move (fr dest : Nat)
  | add (p : Piece) (sq : Nat) (c : Color)
deriving DecidableEq, Repr

namespace BoardChange

/-- Source `BoardChange::priority`: Remove 2, Move 1, Add 0. -/
def priority : BoardChange → Nat
  | remove _ => 2
  | move _ _ => 1
  | add _ _ _ => 0

end BoardChange

namespace Position

/-- `Position::change`: apply one `BoardChange`. -/
def change (p : Position) (ch : BoardChange) : Position :=
  match ch with
  | BoardChange.remove sq => (p.remove sq).1
  | BoardChange.move fr dest =>
    let p := (p.remove dest).1
    match p.piece_at fr with
    | some cp =>
      let p := (p.remove dest).1
      let masks := p.masks.set cp.1.toIdx (Bitmask.without (p.masks.getD cp.1.toIdx 0) fr)
      let masks := masks.set cp.1.toIdx (Bitmask.withSq (masks.getD cp.1.toIdx 0) dest)
      let masks := masks.set (2 + cp.2.index)
        (Bitmask.without (masks.getD (2 + cp.2.index) 0) fr)
      let masks := masks.set (2 + cp.2.index)
        (Bitmask.withSq (masks.getD (2 + cp.2.index) 0) dest)
      { p with masks := masks }
    | none => p
  | BoardChange.add piece sq c => (p.set sq piece c).1

end Position

/-- Helper for `Position::changes`: drop the `n` lowest squares of a mask
(the source pops `first` `n` times). -/
def stripFirst (m : Nat) : Nat → Nat
  | 0 => m
  | n + 1 =>
    match Bitmask.first m with
    | some s => stripFirst (Bitmask.without m s) n
    | none => stripFirst m n

/-- Insertion step of the sort in `Position::changes` (ascending by
`BoardChange::priority`, as `sort_unstable_by` with that comparator). -/
def insertByPriority (x : BoardChange) : List BoardChange → List BoardChange
  | [] => [x]
  | y :: ys =>
    if y.priority ≤ x.priority then y :: insertByPriority x ys else x :: y :: ys

/-- The sort at the end of `Position::changes`: ascending by priority. -/
def sortByPriority (l : List BoardChange) : List BoardChange :=
  l.foldr insertByPriority []

namespace Position

/-- Source `Position::changes`: the edit sequence meant to turn `a` into
`b` with respect to the piece and colour masks. -/
def changes (a b : Position) : List BoardChange :=
  let base :=
    (List.range 6).foldl
      (fun acc i =>
        let frMask := a.masks.getD (2 + i) 0
        let toMask := b.masks.getD (2 + i) 0
        if frMask == toMask then acc
        else
          [Color.white, Color.black].foldl
            (fun acc c =>
              let frm := frMask &&& a.color_mask c
              let tom := toMask &&& b.color_mask c
              let frOnly := Bitmask.intersection frm tom
              let toOnly := Bitmask.intersection tom frm
              match Ord.compare (Bitmask.count frOnly) (Bitmask.count toOnly) with
              | Ordering.gt =>
                let movable :=
                  stripFirst frOnly (Bitmask.count frOnly - Bitmask.count toOnly)
                let removes :=
                  (Bitmask.toList (Bitmask.intersection frOnly movable)).map
                    BoardChange.remove
                let mvs :=
                  ((Bitmask.toList movable).zip (Bitmask.toList toOnly)).map
                    (fun pr => BoardChange.move pr.1 pr.2)
                acc ++ removes ++ mvs
              | Ordering.eq =>
                acc ++
                  ((Bitmask.toList frOnly).zip (Bitmask.toList toOnly)).map
                    (fun pr => BoardChange.move pr.1 pr.2)
              | Ordering.lt =>
                let movable :=
                  stripFirst toOnly (Bitmask.count toOnly - Bitmask.count frOnly)
                let mvs :=
                  ((Bitmask.toList movable).zip (Bitmask.toList frOnly)).map
                    (fun pr => BoardChange.move pr.2 pr.1)
                let adds :=
                  (Bitmask.toList (Bitmask.intersection toOnly movable)).map
                    (fun sq => BoardChange.add ((Piece.from_index i).getD Piece.pawn) sq c)
                acc ++ mvs ++ adds)
            acc)
      []
  sortByPriority base

/-- Apply a list of changes in order (the consumer-side loop of the
`changes` contract). -/
def applyChanges (p : Position) (l : List BoardChange) : Position :=
  l.foldl change p

/-- Source `Default for Position`: the classical start position. -/
def default : Position :=
  { masks :=
      [ rankMask 0 ||| rankMask 1,
        rankMask 7 ||| rankMask 6,
        rankMask 1 ||| rankMask 6,
        Bitmask.ofList [4, 60],
        Bitmask.ofList [0, 56, 7, 63],
        Bitmask.ofList [1, 57, 6, 62],
        Bitmask.ofList [2, 58, 5, 61],
        Bitmask.ofList [3, 59] ],
    enps := none,
    halfmoves := 0 }

end Position

/-- Write one cell of the character grid. -/
def setGrid (g : List (List Char)) (r c : Nat) (ch : Char) : List (List Char) :=
  g.set r ((g.getD r []).set c ch)

namespace Position

/-- Source `Position::to_char_grid`: rank 8 in row 0, rank 1 in row 7. -/
def to_char_grid (p : Position) : List (List Char) :=
  p.pieces.foldl
    (fun g pm =>
      [Color.white, Color.black].foldl
        (fun g c =>
          (Bitmask.toList (pm.2 &&& p.color_mask c)).foldl
            (fun g sq => setGrid g (7 - rankOf sq) (fileOf sq) (pm.1.id c))
            g)
        g)
    (List.replicate 8 (List.replicate 8 ' '))

end Position

/-- The per-rank run-length compression of `Position::board_as_fen_str`. -/
def rowFenAux : List Char → Nat → String
  | [], counter => if counter != 0 then toString counter else ""
  | ch :: rest, counter =>
    if ch == ' ' then rowFenAux rest (counter + 1)
    else
      (if counter != 0 then toString counter else "") ++
        String.singleton ch ++ rowFenAux rest 0

namespace Position

/-- Source `Position::board_as_fen_str`. -/
def board_as_fen_str (p : Position) : String :=
  String.intercalate "/" (p.to_char_grid.map (fun row => rowFenAux row 0))

end Position

/-- Source `CastleDir`. -/
inductive CastleDir where
  | long
  | short
deriving DecidableEq, Repr

namespace CastleDir

/-- Source `CastleDir::to_char`. -/
def to_char : CastleDir → Char
  | long => 'q'
  | short => 'k'

end CastleDir

/-- The `turn as i16` cast used by `CastleRights`: u16 truncation followed
by the signed reinterpretation. -/
def toI16 (t : Nat) : Int :=
  if t % 65536 < 32768 then (t % 65536 : Int) else (t % 65536 : Int) - 65536

/-- Source `CastleRights`: per colour the (kingside, queenside) fullmove at
which the right was lost, negative meaning never lost; plus the two rook
start files. -/
structure CastleRights where
  kingside_file : Nat
  queenside_file : Nat
  white_lost : Int × Int
  black_lost : Int × Int
deriving DecidableEq, Repr

namespace CastleRights

/-- Source `CastleRights::rights`. -/
def rights (cr : CastleRights) (c : Color) : Int × Int :=
  match c with
  | Color.white => cr.white_lost
  | Color.black => cr.black_lost

/-- Source `CastleRights::has_kingside_castle`:
`turn as i16 > self.rights(color).0`. -/
def has_kingside_castle (cr : CastleRights) (c : Color) (turn : Nat) : Bool :=
  decide ((cr.rights c).1 < toI16 turn)

/-- Source `CastleRights::has_queenside_castle`. -/
def has_queenside_castle (cr : CastleRights) (c : Color) (turn : Nat) : Bool :=
  decide ((cr.rights c).2 < toI16 turn)

/-- Source `CastleRights::has_castle`. -/
def has_castle (cr : CastleRights) (c : Color) (turn : Nat) (dir : CastleDir) : Bool :=
  match dir with
  | CastleDir.long => cr.has_queenside_castle c turn
  | CastleDir.short => cr.has_kingside_castle c turn

/-- Source `CastleRights::kingside_rook_square`. -/
def kingside_rook_square (cr : CastleRights) (c : Color) : Nat :=
  mkSquare cr.kingside_file c.back_rank

/-- Source `CastleRights::queenside_rook_square`. -/
def queenside_rook_square (cr : CastleRights) (c : Color) : Nat :=
  mkSquare cr.queenside_file c.back_rank

/-- Source `CastleRights::rook_square`. -/
def rook_square (cr : CastleRights) (c : Color) (dir : CastleDir) : Nat :=
  match dir with
  | CastleDir.long => cr.queenside_rook_square c
  | CastleDir.short => cr.kingside_rook_square c

/-- Source `CastleRights::kingside_target_squares`: (king G, rook F). -/
def kingside_target_squares (_cr : CastleRights) (c : Color) : Nat × Nat :=
  (mkSquare 6 c.back_rank, mkSquare 5 c.back_rank)

/-- Source `CastleRights::queenside_target_squares`: (king C, rook D). -/
def queenside_target_squares (_cr : CastleRights) (c : Color) : Nat × Nat :=
  (mkSquare 2 c.back_rank, mkSquare 3 c.back_rank)

/-- Source `CastleRights::target_squares`. -/
def target_squares (cr : CastleRights) (c : Color) (dir : CastleDir) : Nat × Nat :=
  match dir with
  | CastleDir.long => cr.queenside_target_squares c
  | CastleDir.short => cr.kingside_target_squares c

/-- Source `CastleRights::kingside_check_mask`. -/
def kingside_check_mask (cr : CastleRights) (king : Nat) (c : Color) : Nat :=
  let kt := (cr.kingside_target_squares c).1
  Bitmask.withSq (cached.BETWEEN king kt) kt

/-- Source `CastleRights::queenside_check_mask`. -/
def queenside_check_mask (cr : CastleRights) (king : Nat) (c : Color) : Nat :=
  let kt := (cr.queenside_target_squares c).1
  Bitmask.withSq (cached.BETWEEN king kt) kt

/-- Source `CastleRights::check_mask`. -/
def check_mask (cr : CastleRights) (king : Nat) (c : Color) (dir : CastleDir) : Nat :=
  match dir with
  | CastleDir.long => cr.queenside_check_mask king c
  | CastleDir.short => cr.kingside_check_mask king c

/-- Source `CastleRights::kingside_block_mask`. -/
def kingside_block_mask (cr : CastleRights) (king : Nat) (c : Color) : Nat :=
  let rook := cr.kingside_rook_square c
  let kt := (cr.kingside_target_squares c).1
  let rt := (cr.kingside_target_squares c).2
  Bitmask.without
    (Bitmask.without
      (Bitmask.withSq
        (Bitmask.withSq
          (Bitmask.union (Bitmask.union 0 (cached.BETWEEN king kt)) (cached.BETWEEN rook rt))
          rt)
        kt)
      king)
    rook

/-- Source `CastleRights::queenside_block_mask`.  Note: the source fetches
the KINGSIDE rook square here (`self.kingside_rook_square(color)`). -/
def queenside_block_mask (cr : CastleRights) (king : Nat) (c : Color) : Nat :=
  let rook := cr.kingside_rook_square c
  let kt := (cr.queenside_target_squares c).1
  let rt := (cr.queenside_target_squares c).2
  Bitmask.without
    (Bitmask.without
      (Bitmask.withSq
        (Bitmask.withSq
          (Bitmask.union (Bitmask.union 0 (cached.BETWEEN king kt)) (cached.BETWEEN rook rt))
          rt)
        kt)
      king)
    rook

/-- Source `CastleRights::block_mask`. -/
def block_mask (cr : CastleRights) (king : Nat) (c : Color) (dir : CastleDir) : Nat :=
  match dir with
  | CastleDir.long => cr.queenside_block_mask king c
  | CastleDir.short => cr.kingside_block_mask king c

/-- Source `CastleRights::kingside_castle_play_mask`. -/
def kingside_castle_play_mask (cr : CastleRights) (c : Color) : Nat :=
  Bitmask.withSq (sqMask (cr.kingside_target_squares c).1) (cr.kingside_rook_square c)

/-- Source `CastleRights::queenside_castle_play_mask`. -/
def queenside_castle_play_mask (cr : CastleRights) (c : Color) : Nat :=
  Bitmask.withSq (sqMask (cr.queenside_target_squares c).1) (cr.queenside_rook_square c)

/-- Source `CastleRights::castle_play_mask`. -/
def castle_play_mask (cr : CastleRights) (c : Color) (dir : CastleDir) : Nat :=
  match dir with
  | CastleDir.long => cr.queenside_castle_play_mask c
  | CastleDir.short => cr.kingside_castle_play_mask c

/-- Source `CastleRights::lose_kingside`: only records the turn when the
stored value is still negative. -/
def lose_kingside (cr : CastleRights) (c : Color) (turn : Nat) : CastleRights :=
  if (cr.rights c).1 < 0 then
    match c with
    | Color.white => { cr with white_lost := (toI16 turn, cr.white_lost.2) }
    | Color.black => { cr with black_lost := (toI16 turn, cr.black_lost.2) }
  else cr

/-- Source `CastleRights::lose_queenside`. -/
def lose_queenside (cr : CastleRights) (c : Color) (turn : Nat) : CastleRights :=
  if (cr.rights c).2 < 0 then
    match c with
    | Color.white => { cr with white_lost := (cr.white_lost.1, toI16 turn) }
    | Color.black => { cr with black_lost := (cr.black_lost.1, toI16 turn) }
  else cr

/-- Source `CastleRights::lose`. -/
def lose (cr : CastleRights) (c : Color) (side : CastleDir) (turn : Nat) : CastleRights :=
  match side with
  | CastleDir.long => cr.lose_queenside c turn
  | CastleDir.short => cr.lose_kingside c turn

/-- Source `CastleRights::give_kingside`. -/
def give_kingside (cr : CastleRights) (c : Color) : CastleRights :=
  match c with
  | Color.white => { cr with white_lost := (-1, cr.white_lost.2) }
  | Color.black => { cr with black_lost := (-1, cr.black_lost.2) }

/-- Source `CastleRights::give_queenside`. -/
def give_queenside (cr : CastleRights) (c : Color) : CastleRights :=
  match c with
  | Color.white => { cr with white_lost := (cr.white_lost.1, -1) }
  | Color.black => { cr with black_lost := (cr.black_lost.1, -1) }

/-- Source `CastleRights::give`. -/
def give (cr : CastleRights) (c : Color) (side : CastleDir) : CastleRights :=
  match side with
  | CastleDir.long => cr.give_queenside c
  | CastleDir.short => cr.give_kingside c

/-- Source `CastleRights::index`: a snapshot as of a fullmove, where any
loss later than the query is treated as not yet lost. -/
def index (cr : CastleRights) (fullmoves : Nat) : CastleRights :=
  let w1 := if toI16 fullmoves < cr.white_lost.1 then -1 else cr.white_lost.1
  let w2 := if toI16 fullmoves < cr.white_lost.2 then -1 else cr.white_lost.2
  let b1 := if toI16 fullmoves < cr.black_lost.1 then -1 else cr.black_lost.1
  let b2 := if toI16 fullmoves < cr.black_lost.2 then -1 else cr.black_lost.2
  { cr with white_lost := (w1, w2), black_lost := (b1, b2) }

/-- Source `CastleRights::none` (`i16::MAX` sentinel). -/
def noRights : CastleRights :=
  { kingside_file := 7, queenside_file := 0,
    white_lost := (32767, 32767), black_lost := (32767, 32767) }

/-- Source `Default for CastleRights`. -/
def default : CastleRights :=
  { kingside_file := 7, queenside_file := 0,
    white_lost := (-1, -1), black_lost := (-1, -1) }

/-- Source `CastleRights::lost_all_castle`. -/
def lost_all_castle (cr : CastleRights) (c : Color) : Bool :=
  match c with
  | Color.white => decide (cr.white_lost.1 > -1) && decide (cr.white_lost.2 > -1)
  | Color.black => decide (cr.black_lost.1 > -1) && decide (cr.black_lost.2 > -1)

/-- Source `CastleRights::castle_dir_as_char`. -/
def castle_dir_as_char (cr : CastleRights) (c : Color) (dir : CastleDir) : Char :=
  if cr.kingside_file == 7 && cr.queenside_file == 0 then
    if c.is_white then dir.to_char.toUpper else dir.to_char
  else
    let fch :=
      match fileOf (cr.rook_square c dir) with
      | 0 => 'a' | 1 => 'b' | 2 => 'c' | 3 => 'd'
      | 4 => 'e' | 5 => 'f' | 6 => 'g' | _ => 'h'
    if c.is_white then fch.toUpper else fch

/-- Source `CastleRights::to_fen_string`: note the `u16::MAX` query turn,
which the `as i16` cast turns into `-1`. -/
def to_fen_string (cr : CastleRights) : String :=
  if cr.lost_all_castle Color.white && cr.lost_all_castle Color.black then "-"
  else
    [CastleDir.short, CastleDir.long].foldl
      (fun s dir =>
        [Color.white, Color.black].foldl
          (fun s c =>
            if cr.has_castle c 65535 dir then s.push (cr.castle_dir_as_char c dir)
            else s)
          s)
      ""

end CastleRights

end Palatino

namespace Palatino

/-- Source `compute_defense_mask`: squares the enemy attacks with the own
king removed from the blockers. -/
def compute_defense_mask (pos : Position) (turn : Color) : Nat :=
  let king := (Bitmask.first (pos.kings &&& pos.color_mask turn)).getD 0
  let friendly := pos.color_mask turn
  let blockers := Bitmask.without pos.occupied king
  pos.pieces.foldl
    (fun defense pm =>
      (Bitmask.toList (Bitmask.intersection pm.2 friendly)).foldl
        (fun d sq => d ||| (Piece.moves pm.1 sq blockers turn.flip).1)
        defense)
    0

/-- Source `compute_pinned_and_checking_masks`.  The iterated mask is the
enemy sliders aligned with the king (the double complement of the source
cancels `Bitmask::intersection` being a difference). -/
def compute_pinned_and_checking_masks (pos : Position) (turn : Color) : Nat × Nat :=
  let king := (Bitmask.first (pos.kings &&& pos.color_mask turn)).getD 0
  let blockers := pos.occupied
  let friendly := pos.color_mask turn
  let iterMask :=
    Bitmask.union
      (Bitmask.intersection (pos.diagonal_sliders turn.flip) (compl (cached.BISHOP king)))
      (Bitmask.intersection (pos.orthogonal_sliders turn.flip) (compl (cached.ROOK king)))
  let pc :=
    (Bitmask.toList iterMask).foldl
      (fun (pc : Nat × Nat) square =>
        let between := cached.BETWEEN king square
        let blocking := blockers &&& between
        if Bitmask.count blocking == 0 then (pc.1, Bitmask.withSq pc.2 square)
        else if Bitmask.count blocking == 1 && Bitmask.has friendly square then
          (Bitmask.withSq pc.1 square, pc.2)
        else pc)
      (0, 0)
  let checking :=
    (Bitmask.toList ((pos.knights &&& compl friendly) &&& cached.KNIGHT king)).foldl
      Bitmask.withSq pc.2
  let checking :=
    (Bitmask.toList
        ((pos.pawns &&& compl friendly) &&&
          (if turn == Color.white then cached.WHITE_PAWN_ATTACKS king
           else cached.BLACK_PAWN_ATTACKS king))).foldl
      Bitmask.withSq checking
  (pc.1, checking)

/-- Source `en_passant_would_move_into_discovered_check`: mirrors the
early returns — `false` exactly when some aligned enemy slider has no
blocker between itself and the king after the simulated capture, and
`true` when no line is shared at all. -/
def en_passant_would_move_into_discovered_check
    (pos : Position) (epsq square king : Nat) (turn : Color) : Bool :=
  let capture_sq := withFile square (fileOf epsq)
  let blockers :=
    Bitmask.without (Bitmask.without (Bitmask.withSq pos.occupied epsq) square) capture_sq
  if sharesOrthogonal capture_sq king then
    (Bitmask.toList (pos.orthogonal_sliders turn.flip &&& cached.ROOK king)).all
      (fun s => Bitmask.intersects (cached.BETWEEN king s) blockers)
  else if sharesDiagonal epsq king then
    (Bitmask.toList (pos.diagonal_sliders turn.flip &&& cached.BISHOP king)).all
      (fun s => Bitmask.intersects (cached.BETWEEN king s) blockers)
  else true

/-- Source `MoveGenerator`. -/
structure MoveGenerator where
  position : Position
  turn : Color
  castle : CastleRights
  fullmoves : Nat
  defense : Nat
  pinned : Nat
  checking : Nat
deriving DecidableEq, Repr

namespace MoveGenerator

/-- Source `MoveGenerator::new`. -/
def new (position : Position) (turn : Color) (castle : CastleRights)
    (fullmoves : Nat) : MoveGenerator :=
  let defense := compute_defense_mask position turn
  let pc := compute_pinned_and_checking_masks position turn
  { position, turn, castle, fullmoves, defense, pinned := pc.1, checking := pc.2 }

/-- Source `MoveGenerator::is_check`. -/
def is_check (g : MoveGenerator) : Bool := !(g.checking == 0)

/-- Source `MoveGenerator::king` (the position is expected to hold one). -/
def king (g : MoveGenerator) : Nat :=
  (Bitmask.first (g.position.kings &&& g.position.color_mask g.turn)).getD 0

/-- Source `MoveGenerator::generate_internal`. -/
def generate_internal (g : MoveGenerator) (piece : Piece) (square king : Nat) : Nat :=
  let blockers := g.position.occupied
  let am := Piece.moves piece square blockers g.turn
  let attacks := am.1 &&& compl (g.position.color_mask g.turn)
  let sc : Nat × Nat :=
    match piece with
    | Piece.pawn =>
      let capturable := g.position.color_mask g.turn.flip
      let sc :=
        match g.position.enps with
        | some epsq =>
          if Bitmask.has attacks epsq &&
              !(en_passant_would_move_into_discovered_check g.position epsq square king g.turn) then
            let capture_sq := withFile square (fileOf epsq)
            if Bitmask.count g.checking == 0 then (Bitmask.withSq 0 epsq, capturable)
            else if Bitmask.count g.checking == 1 && Bitmask.has g.checking capture_sq then
              (if !(Bitmask.has g.pinned square) then Bitmask.withSq 0 epsq else 0, capturable)
            else if Bitmask.count g.checking == 1 then (0, Bitmask.withSq capturable epsq)
            else (0, capturable)
          else (0, capturable)
        | none => (0, capturable)
      sc
    | _ => (0, 0)
  let attacks :=
    match piece with
    | Piece.pawn => (attacks &&& sc.2) ||| am.2
    | _ => attacks
  let specials : Nat :=
    match piece with
    | Piece.pawn => sc.1
    | Piece.king =>
      if !g.is_check then
        [CastleDir.short, CastleDir.long].foldl
          (fun sp dir =>
            if g.castle.has_castle g.turn g.fullmoves dir then
              if !(Bitmask.intersects (g.castle.check_mask king g.turn dir) g.defense) &&
                  Bitmask.intersects (g.castle.block_mask king g.turn dir) blockers then
                sp ||| g.castle.castle_play_mask g.turn dir
              else sp
            else sp)
          0
      else 0
    | _ => 0
  let attacks :=
    match piece with
    | Piece.king => attacks &&& compl g.defense
    | _ => attacks
  let attacks :=
    (Bitmask.toList g.checking).foldl
      (fun a c => a &&& Bitmask.withSq (cached.BETWEEN king c) c)
      attacks
  let attacks :=
    if Bitmask.has g.pinned square then
      if sharesOrthogonal square king then
        attacks &&& (cached.ROOK king &&& cached.ROOK square)
      else attacks &&& (cached.BISHOP king &&& cached.BISHOP square)
    else attacks
  attacks ||| specials

/-- Source `MoveGenerator::generate`. -/
def generate (g : MoveGenerator) (square : Nat) : Nat :=
  match g.position.piece_at square with
  | some cp => if cp.1 == g.turn then g.generate_internal cp.2 square g.king else 0
  | none => 0

end MoveGenerator

/-- Source `BoardState`. -/
structure BoardState where
  position : Position
  castle : CastleRights
  fullmoves : Nat
  turn : Color
deriving DecidableEq, Repr

namespace BoardState

/-- Source `Default for BoardState`. -/
def default : BoardState :=
  { position := Position.default, castle := CastleRights.default,
    fullmoves := 1, turn := Color.white }

/-- Source `BoardState::generator`. -/
def generator (s : BoardState) : MoveGenerator :=
  MoveGenerator.new s.position s.turn s.castle s.fullmoves

/-- Source `BoardState::play_unchecked`: apply a generator-validated move.
Mirrors the mutation order of the source, in particular that king moves
call `CastleRights::lose` before testing `has_castle` for the castle
branch. -/
def play_unchecked (s : BoardState) (fr dest : Nat) (promote : Option Piece) :
    BoardState :=
  let result := { s.position with enps := none }
  let result := (result.remove fr).1
  let rc : Position × CastleRights :=
    match s.position.piece_at fr with
    | none => (result, s.castle)
    | some cp =>
      match cp.2 with
      | Piece.pawn =>
        let result := { result with halfmoves := 0 }
        let result :=
          match s.position.enps with
          | some epsq =>
            if epsq == dest then (result.remove (withFile fr (fileOf epsq))).1 else result
          | none => result
        let result :=
          if ((rankOf fr : Int) - (rankOf dest : Int)).natAbs > 1 then
            { result with enps := some ((tryOffset fr 0 s.turn.pawn_dir).getD 0) }
          else result
        let result :=
          match promote with
          | some promotion => (result.set dest promotion s.turn).1
          | none => (result.set dest Piece.pawn s.turn).1
        (result, s.castle)
      | Piece.king =>
        let st :=
          [CastleDir.short, CastleDir.long].foldl
            (fun (st : CastleRights × Position × Bool) dir =>
              let castle := st.1.lose s.turn dir s.fullmoves
              if castle.has_castle s.turn s.fullmoves dir then
                if Bitmask.has (castle.castle_play_mask s.turn dir) dest then
                  let rook := castle.rook_square s.turn dir
                  let result := (st.2.1.remove fr).1
                  let result := (result.remove rook).1
                  let kt := (castle.target_squares s.turn dir).1
                  let rt := (castle.target_squares s.turn dir).2
                  let result := (result.set kt Piece.king s.turn).1
                  let result := (result.set rt Piece.rook s.turn).1
                  (castle, result, true)
                else (castle, st.2.1, st.2.2)
              else (castle, st.2.1, st.2.2))
            (s.castle, result, false)
        let castle := st.1
        let result := st.2.1
        let castled := st.2.2
        let result :=
          if !castled then
            let pr := result.set dest Piece.king s.turn
            if pr.2.isSome then { pr.1 with halfmoves := 0 }
            else { pr.1 with halfmoves := pr.1.halfmoves + 1 }
          else { result with halfmoves := result.halfmoves + 1 }
        (result, castle)
      | other =>
        let castle :=
          if other == Piece.rook then
            if s.castle.has_castle s.turn s.fullmoves CastleDir.long &&
                fr == s.castle.rook_square s.turn CastleDir.long then
              s.castle.lose s.turn CastleDir.long s.fullmoves
            else if s.castle.has_castle s.turn s.fullmoves CastleDir.short &&
                fr == s.castle.rook_square s.turn CastleDir.short then
              s.castle.lose s.turn CastleDir.short s.fullmoves
            else s.castle
          else s.castle
        let pr := result.set dest other s.turn
        let result :=
          if pr.2.isSome then { pr.1 with halfmoves := 0 }
          else { pr.1 with halfmoves := pr.1.halfmoves + 1 }
        (result, castle)
  let fullmoves :=
    match s.turn with
    | Color.white => s.fullmoves
    | Color.black => s.fullmoves + 1
  { position := rc.1, castle := rc.2, fullmoves, turn := s.turn.flip }

end BoardState

/-- `File::from_char` (case-agnostic). -/
def fileFromChar (c : Char) : Option Nat :=
  match c.toLower with
  | 'a' => some 0 | 'b' => some 1 | 'c' => some 2 | 'd' => some 3
  | 'e' => some 4 | 'f' => some 5 | 'g' => some 6 | 'h' => some 7
  | _ => none

/-- `Rank::from_char`. -/
def rankFromChar (c : Char) : Option Nat :=
  match c with
  | '1' => some 0 | '2' => some 1 | '3' => some 2 | '4' => some 3
  | '5' => some 4 | '6' => some 5 | '7' => some 6 | '8' => some 7
  | _ => none

/-- `File::to_char_lower`. -/
def fileCharLower (f : Nat) : Char :=
  match f with
  | 0 => 'a' | 1 => 'b' | 2 => 'c' | 3 => 'd'
  | 4 => 'e' | 5 => 'f' | 6 => 'g' | _ => 'h'

/-- `Rank::to_char`. -/
def rankChar (r : Nat) : Char :=
  match r with
  | 0 => '1' | 1 => '2' | 2 => '3' | 3 => '4'
  | 4 => '5' | 5 => '6' | 6 => '7' | _ => '8'

/-- `Square::to_string_lower`. -/
def squareToStringLower (sq : Nat) : String :=
  String.singleton (fileCharLower (fileOf sq)) ++ String.singleton (rankChar (rankOf sq))

/-- `Square::try_from_string` (for example e4 or d5). -/
def squareFromString (s : String) : Option Nat :=
  match s.toList with
  | [c1, c2] =>
    match rankFromChar c2, fileFromChar c1 with
    | some rank, some file => some (mkSquare file rank)
    | _, _ => none
  | _ => none

/-- Source `FenParseError`. -/
inductive FenParseError where
  | MissingInfo
  | BadCastle
  | BadPosition
  | BadTurn
  | BadEnPassant
  | BadHalfmoves
  | BadFullmoves
  | MissingKings
deriving DecidableEq, Repr

/-- Token accumulator for `splitWhitespace`. -/
def splitWsAux : List Char → List Char → List String
  | [], acc => if acc.isEmpty then [] else [String.mk acc.reverse]
  | c :: rest, acc =>
    if c.isWhitespace then
      if acc.isEmpty then splitWsAux rest []
      else String.mk acc.reverse :: splitWsAux rest []
    else splitWsAux rest (c :: acc)

/-- `str::split_ascii_whitespace`: maximal whitespace-free tokens. -/
def splitWhitespace (s : String) : List String := splitWsAux s.toList []

/-- Value of a nonempty all-digit string (arbitrary precision). -/
def digitsVal (cs : List Char) : Option Nat :=
  if cs.isEmpty then none
  else
    cs.foldl
      (fun acc c =>
        match acc with
        | none => none
        | some v => if c.isDigit then some (v * 10 + (c.toNat - 48)) else none)
      (some 0)

/-- Modelled from Rust std: the numeral grammar `FromStr` accepts for
unsigned integers — an optional leading plus sign, then one or more
decimal digits; the value is unbounded here. -/
def numeralValue (s : String) : Option Nat :=
  match s.toList with
  | '+' :: rest => digitsVal rest
  | cs => digitsVal cs

/-- Modelled from Rust std: `str::parse::<u8>` — the numeral grammar with
overflow above `u8::MAX` rejected. -/
def parseU8 (s : String) : Option Nat :=
  match numeralValue s with
  | some v => if v < 256 then some v else none
  | none => none

/-- Modelled from Rust std: `str::parse::<u16>`. -/
def parseU16 (s : String) : Option Nat :=
  match numeralValue s with
  | some v => if v < 65536 then some v else none
  | none => none

/-- Source `FenParser`: the six whitespace-separated fields. -/
structure FenParser where
  fields : List String
deriving DecidableEq, Repr

namespace FenParser

/-- Source `FenParser::parse`: exactly six fields or `MissingInfo`. -/
def parse (s : String) : Except FenParseError FenParser :=
  let f := splitWhitespace s
  if f.length == 6 then Except.ok { fields := f } else Except.error FenParseError.MissingInfo

/-- Field accessor (the source indexes a fixed-size array). -/
def field (p : FenParser) (i : Nat) : String := p.fields.getD i ""

/-- Source `FenParser::halfmoves`: a u8 parse, then values above 50
rejected; both failures are `BadHalfmoves`. -/
def halfmoves (p : FenParser) : Except FenParseError Nat :=
  match parseU8 (p.field 4) with
  | some h => if h > 50 then Except.error FenParseError.BadHalfmoves else Except.ok h
  | none => Except.error FenParseError.BadHalfmoves

/-- Source `FenParser::fullmoves`. -/
def fullmoves (p : FenParser) : Except FenParseError Nat :=
  match parseU16 (p.field 5) with
  | some f => Except.ok f
  | none => Except.error FenParseError.BadFullmoves

/-- Source `FenParser::en_passant`. -/
def en_passant (p : FenParser) : Except FenParseError (Option Nat) :=
  if p.field 3 == "-" then Except.ok none
  else
    match squareFromString (p.field 3) with
    | some sq => Except.ok (some sq)
    | none => Except.error FenParseError.BadEnPassant

/-- Source `FenParser::turn`. -/
def turn (p : FenParser) : Except FenParseError Color :=
  if p.field 1 == "w" then Except.ok Color.white
  else if p.field 1 == "b" then Except.ok Color.black
  else Except.error FenParseError.BadTurn

/-- The loop of `FenParser::castle`. -/
def castleFold (rights : CastleRights) : List Char → Except FenParseError CastleRights
  | [] => Except.ok rights
  | c :: rest =>
    match c.toLower with
    | 'k' => castleFold (rights.give (Color.of_char c) CastleDir.short) rest
    | 'q' => castleFold (rights.give (Color.of_char c) CastleDir.long) rest
    | _ => Except.error FenParseError.BadCastle

/-- Source `FenParser::castle` (classical KQkq notation). -/
def castle (p : FenParser) : Except FenParseError CastleRights :=
  if p.field 2 == "-" then Except.ok CastleRights.noRights
  else castleFold CastleRights.noRights (p.field 2).toList

/-- Source `FenParser::castle_is_shredder`. -/
def castle_is_shredder (p : FenParser) : Bool :=
  !((p.field 2).toList.any (fun c => c == 'K' || c == 'Q' || c == 'k' || c == 'q' || c == '-'))

/-- The loop of `FenParser::castle_as_shredder`. -/
def castleShredderFold (whiteKing blackKing : Nat) (rights : CastleRights) :
    List Char → Except FenParseError CastleRights
  | [] => Except.ok rights
  | c :: rest =>
    match fileFromChar c with
    | some file =>
      let dir := match Color.of_char c with
        | Color.white => whiteKing
        | Color.black => blackKing
      if (file : Int) - (dir : Int) > 0 then
        castleShredderFold whiteKing blackKing
          (rights.give (Color.of_char c) CastleDir.short) rest
      else
        castleShredderFold whiteKing blackKing
          (rights.give (Color.of_char c) CastleDir.long) rest
    | none => Except.error FenParseError.BadCastle

/-- Source `FenParser::castle_as_shredder`. -/
def castle_as_shredder (p : FenParser) (whiteKing blackKing : Nat) :
    Except FenParseError CastleRights :=
  if p.field 2 == "-" then Except.ok CastleRights.noRights
  else castleShredderFold whiteKing blackKing CastleRights.noRights (p.field 2).toList

/-- The loop of `FenParser::position`: the running index counts board
cells from the top-left; the stored square flips the rank. -/
def posFold : List Char → Nat → List Nat → Except FenParseError (List Nat)
  | [], _, masks => Except.ok masks
  | c :: rest, index, masks =>
    if c == '/' then posFold rest index masks
    else if c.isDigit then posFold rest ((index + (c.toNat - 48)) % 256) masks
    else
      match Piece.from_id c with
      | some piece =>
        match Square.try_idx index with
        | some square =>
          let sq2 := mkSquare (fileOf square) (7 - rankOf square)
          let masks := masks.set (2 + piece.index)
            (Bitmask.withSq (masks.getD (2 + piece.index) 0) sq2)
          let ci := (Color.of_char c).toIdx
          let masks := masks.set ci (Bitmask.withSq (masks.getD ci 0) sq2)
          posFold rest ((index + 1) % 256) masks
        | none => Except.error FenParseError.BadPosition
      | none => Except.error FenParseError.BadPosition

/-- Source `FenParser::position`. -/
def position (p : FenParser) : Except FenParseError Position := do
  let masks ← posFold (p.field 0).toList 0 [0, 0, 0, 0, 0, 0, 0, 0]
  let halfmoves ← p.halfmoves
  let enps ← p.en_passant
  Except.ok { masks := masks, enps := enps, halfmoves := halfmoves }

end FenParser

namespace BoardState

/-- Source `BoardState::from_fen`. -/
def from_fen (s : String) : Except FenParseError BoardState := do
  let parser ← FenParser.parse s
  let position ← parser.position
  let castle ←
    if parser.castle_is_shredder then
      let whiteKings := position.kings &&& position.color_mask Color.white
      let blackKings := position.kings &&& position.color_mask Color.black
      if Bitmask.count whiteKings == 0 || Bitmask.count blackKings == 0 then
        Except.error FenParseError.MissingKings
      else
        parser.castle_as_shredder
          (fileOf ((Bitmask.first whiteKings).getD 0))
          (fileOf ((Bitmask.first blackKings).getD 0))
    else parser.castle
  let fullmoves ← parser.fullmoves
  let turn ← parser.turn
  Except.ok { position, castle, fullmoves, turn }

/-- Source `BoardState::to_fen`: the six fields joined by single spaces. -/
def to_fen (s : BoardState) : String :=
  s.position.board_as_fen_str ++ " " ++
    String.singleton s.turn.to_char ++ " " ++
    s.castle.to_fen_string ++ " " ++
    (match s.position.enps with
      | some sq => squareToStringLower sq
      | none => "-") ++ " " ++
    toString s.position.halfmoves ++ " " ++
    toString s.fullmoves

end BoardState

end Palatino

namespace Palatino

/-- Source `File::try_idx` over the raw u8 discriminant: the guard is
`idx > 8`, so 8 slips through to the transmute and is returned rather
than rejected. -/
def File.try_idx (idx : Nat) : Option Nat := if idx > 8 then none else some idx

/-- Source `Rank::try_idx` over the raw u8 discriminant (same `> 8`
guard). -/
def Rank.try_idx (idx : Nat) : Option Nat := if idx > 8 then none else some idx

/-- Modelled from the spec: the queenside block mask as the specification
states it, i.e. built from the QUEENSIDE rook start square (compare
`CastleRights.queenside_block_mask`, which fetches the kingside one). -/
def queenside_block_mask_spec (cr : CastleRights) (king : Nat) (c : Color) : Nat :=
  let rook := cr.queenside_rook_square c
  let kt := (cr.queenside_target_squares c).1
  let rt := (cr.queenside_target_squares c).2
  Bitmask.without
    (Bitmask.without
      (Bitmask.withSq
        (Bitmask.withSq
          (Bitmask.union (Bitmask.union 0 (cached.BETWEEN king kt)) (cached.BETWEEN rook rt))
          rt)
        kt)
      king)
    rook

/-- Fixture: both sides retain all castling rights and the castle paths
are empty and undefended. -/
def castleTestState : BoardState :=
  match BoardState.from_fen "r3k2r/8/8/8/8/8/8/R3K2R w KQkq - 0 1" with
  | Except.ok s => s
  | Except.error _ => BoardState.default

/-- Fixture: the spec scenario S2 (and the repository test `generate_0`),
whose expected answer is `generate(D5) = {E6}`. -/
def s2TestState : BoardState :=
  match BoardState.from_fen "2r2k1r/p1p3b1/1p1p1n2/3PppBp/2P5/2N2N2/PP2QPPP/R3K2R w - e6 0 1" with
  | Except.ok s => s
  | Except.error _ => BoardState.default

/-- Fixture: white king E1, white bishop E4, black rook E8, black king H8 —
the bishop is pinned to the king by the rook. -/
def pinTestPos : Position :=
  { masks := [Bitmask.ofList [4, 28], Bitmask.ofList [60, 63], 0,
      Bitmask.ofList [4, 63], Bitmask.ofList [60], 0, Bitmask.ofList [28], 0],
    enps := none, halfmoves := 0 }

/-- Fixture for the diff algebra: a single white pawn on A2. -/
def diffPosA : Position :=
  { masks := [Bitmask.ofList [8], 0, Bitmask.ofList [8], 0, 0, 0, 0, 0],
    enps := none, halfmoves := 0 }

/-- Fixture for the diff algebra: a single white knight on A2. -/
def diffPosB : Position :=
  { masks := [Bitmask.ofList [8], 0, 0, 0, 0, Bitmask.ofList [8], 0, 0],
    enps := none, halfmoves := 0 }

end Palatino

namespace Palatino

set_option maxRecDepth 8000

/-- Claim C1: in a position where neither castle path is blocked or
defended and the rights are held, the spec requires the generator to add
the castle destinations; the source adds them only when
`block_mask ∩ occupied ≠ ∅` (the `intersects` call lacks a negation), so
`generate(E1)` here contains no castle destination although both
spec-side conditions hold and the king is not in check. -/
theorem c1_castle_conditions_hold_but_castle_not_generated :
    castleTestState.generator.king = 4 ∧
    castleTestState.castle.has_castle Color.white castleTestState.fullmoves CastleDir.short = true ∧
    castleTestState.castle.has_castle Color.white castleTestState.fullmoves CastleDir.long = true ∧
    castleTestState.generator.is_check = false ∧
    (castleTestState.castle.check_mask 4 Color.white CastleDir.short &&&
      castleTestState.generator.defense) = 0 ∧
    (castleTestState.castle.block_mask 4 Color.white CastleDir.short &&&
      castleTestState.position.occupied) = 0 ∧
    (castleTestState.castle.check_mask 4 Color.white CastleDir.long &&&
      castleTestState.generator.defense) = 0 ∧
    (castleTestState.castle.block_mask 4 Color.white CastleDir.long &&&
      castleTestState.position.occupied) = 0 ∧
    castleTestState.generator.generate 4 = Bitmask.ofList [3, 5, 11, 12, 13] ∧
    (castleTestState.generator.generate 4 &&&
      castleTestState.castle.castle_play_mask Color.white CastleDir.short) = 0 ∧
    (castleTestState.generator.generate 4 &&&
      castleTestState.castle.castle_play_mask Color.white CastleDir.long) = 0 := by
  decide

/-- Claim C2: with white to move, the black rook on E8 is aligned with the
white king on E1 and exactly one own-colour piece (the bishop on E4)
stands strictly between them, yet the computed pinned mask is empty: the
source tests `friendly.has(slider)` (never true for an enemy slider) and
would record the slider square rather than the blocker, so no square is
ever pinned. -/
theorem c2_aligned_single_blocker_not_pinned :
    Bitmask.has (pinTestPos.orthogonal_sliders Color.black) 60 = true ∧
    (cached.BETWEEN 4 60 &&& pinTestPos.occupied) = sqMask 28 ∧
    Bitmask.has pinTestPos.white 28 = true ∧
    (compute_pinned_and_checking_masks pinTestPos Color.white).1 = 0 ∧
    Bitmask.has (compute_pinned_and_checking_masks pinTestPos Color.white).1 28 = false := by
  decide

/-- Claim C3: for the S2 position the spec (and the repository test
`generate_0`) require `generate(D5) = {E6}`; the embedded source returns
the empty mask because `en_passant_would_move_into_discovered_check`
returns `true` (capture forbidden) exactly when no enemy slider threatens
the king — here the king shares the E file with the capture square but no
black orthogonal slider is aligned with it, and the function's fallthrough
returns `true`. -/
theorem c3_s2_en_passant_not_generated :
    s2TestState.position.enps = some 44 ∧
    s2TestState.generator.is_check = false ∧
    en_passant_would_move_into_discovered_check s2TestState.position 44 35 4 Color.white = true ∧
    s2TestState.generator.generate 35 = 0 := by
  decide

/-- Claim C4: white holds the kingside right and E1→G1 lands in its
castle-play mask, but `play_unchecked` calls `lose` before `has_castle`,
and under the source's `turn > lost_at` test the freshly recorded loss
makes `has_castle` false, so the castle branch is dead: the king lands on
G1 while the rook stays on H1 and F1 stays empty. -/
theorem c4_play_unchecked_never_castles :
    castleTestState.castle.has_castle Color.white castleTestState.fullmoves CastleDir.short = true ∧
    Bitmask.has (castleTestState.castle.castle_play_mask Color.white CastleDir.short) 6 = true ∧
    (castleTestState.play_unchecked 4 6 none).position.kings = Bitmask.ofList [6, 60] ∧
    (castleTestState.play_unchecked 4 6 none).position.rooks = Bitmask.ofList [0, 7, 56, 63] ∧
    Bitmask.has (castleTestState.play_unchecked 4 6 none).position.rooks 5 = false ∧
    Bitmask.has (castleTestState.play_unchecked 4 6 none).position.rooks 7 = true := by
  decide

/-- Claim C5: the claim states the right is held at `t` iff `lost_at < 0`
or `t ≤ lost_at`; the source compares `turn as i16 > lost_at`.  With the
kingside right lost at fullmove 5 the source reports the right held at
`t = 10` (where the claim says lost) and not held at `t = 3` (where the
claim says held). -/
theorem c5_has_castle_disagrees_with_loss_record :
    (CastleRights.default.lose_kingside Color.white 5).white_lost = (5, -1) ∧
    (CastleRights.default.lose_kingside Color.white 5).has_kingside_castle Color.white 10 = true ∧
    (CastleRights.default.lose_kingside Color.white 5).has_castle Color.white 10
      CastleDir.short = true ∧
    ¬((5 : Int) < 0 ∨ (10 : Nat) ≤ 5) ∧
    (CastleRights.default.lose_kingside Color.white 5).has_kingside_castle Color.white 3 = false ∧
    ((5 : Int) < 0 ∨ (3 : Nat) ≤ 5) := by
  decide

/-- Claim C6: serialising the default board state yields an empty castling
field, not `KQkq`: `to_fen_string` queries `has_castle` at `u16::MAX`,
whose `as i16` cast is `-1`, and `-1 > -1` fails for the sentinel `-1`
meaning never lost — so the default FEN has two consecutive spaces where
`KQkq` should stand. -/
theorem c6_default_fen_castle_field_empty :
    BoardState.default.to_fen = "rnbqkbnr/pppppppp/8/8/8/8/PPPPPPPP/RNBQKBNR w  - 0 1" ∧
    CastleRights.default.to_fen_string = "" ∧
    BoardState.default.to_fen ≠
      "rnbqkbnr/pppppppp/8/8/8/8/PPPPPPPP/RNBQKBNR w KQkq - 0 1" := by
  decide

/-- Claim C7: the source `queenside_block_mask` fetches the kingside rook
square, so for the classical white king on E1 it yields {C1, D1, F1, G1}
instead of the spec's {B1, C1, D1} built from the queenside rook on A1
(modelled in `queenside_block_mask_spec`). -/
theorem c7_queenside_block_mask_wrong_rook :
    CastleRights.default.queenside_block_mask 4 Color.white = Bitmask.ofList [2, 3, 5, 6] ∧
    queenside_block_mask_spec CastleRights.default 4 Color.white = Bitmask.ofList [1, 2, 3] ∧
    CastleRights.default.queenside_block_mask 4 Color.white ≠
      queenside_block_mask_spec CastleRights.default 4 Color.white := by
  decide

/-- Claim C8: with a lone white pawn on A2 turning into a lone white
knight on A2, `changes` emits the Add before the Remove (the sort is
ascending on a priority that gives Add 0 and Remove 2, inverting the
declared Remove-Move-Add order), so applying the sequence deletes the
added knight and the result differs from the target masks. -/
theorem c8_changes_apply_misses_target :
    diffPosA.changes diffPosB =
      [BoardChange.add Piece.knight 8 Color.white, BoardChange.remove 8] ∧
    (diffPosA.applyChanges (diffPosA.changes diffPosB)).masks = [0, 0, 0, 0, 0, 0, 0, 0] ∧
    (diffPosA.applyChanges (diffPosA.changes diffPosB)).masks ≠ diffPosB.masks := by
  decide

/-- Claim C9: the halfmoves field parses to `Ok n` exactly when it is a
decimal numeral of value `n ≤ 50`, and every failure is `BadHalfmoves`
(values above `u8::MAX` fail the u8 parse and values in (50, 255] fail the
explicit bound, so all integers above 50 error out). -/
theorem c9_halfmoves_ok_iff_numeral_at_most_fifty (p : FenParser) (n : Nat) :
    (p.halfmoves = Except.ok n ↔ numeralValue (p.field 4) = some n ∧ n ≤ 50) ∧
    (p.halfmoves = Except.error FenParseError.BadHalfmoves ∨
      ∃ m, p.halfmoves = Except.ok m) := by
  unfold FenParser.halfmoves parseU8
  cases h : numeralValue (p.field 4) with
  | none => simp
  | some v =>
    dsimp only
    by_cases hv : v < 256
    · rw [if_pos hv]
      dsimp only
      by_cases h50 : v > 50
      · rw [if_pos h50]
        constructor
        · constructor
          · intro hc
            exact absurd hc (by simp)
          · rintro ⟨hs, hn⟩
            injection hs with hs
            omega
        · left
          rfl
      · rw [if_neg h50]
        constructor
        · constructor
          · intro hc
            injection hc with hc
            exact ⟨by rw [hc], by omega⟩
          · rintro ⟨hs, _⟩
            injection hs with hs
            rw [hs]
        · right
          exact ⟨v, rfl⟩
    · rw [if_neg hv]
      dsimp only
      constructor
      · constructor
        · intro hc
          exact absurd hc (by simp)
        · rintro ⟨hs, hn⟩
          injection hs with hs
          omega
      · left
        rfl

/-- Claim C10: the bounds-checked constructors must reject every index at
or above 8, but the guards read `idx > 8`, so index 8 passes the check
and is transmuted instead of returning `None` — contradicting the
repository tests asserting `try_idx(8) == None`. -/
theorem c10_try_idx_accepts_eight :
    File.try_idx 8 = some 8 ∧ Rank.try_idx 8 = some 8 ∧
    ¬(File.try_idx 8 = none) ∧ ¬(Rank.try_idx 8 = none) := by
  decide

end Palatino
